import Mathlib

/-!
Verification development for the GS plugin of this repository.

Shallow embedding of the renderer/device lifecycle core
(src/plugins/GS/GS.cpp) and of the SIMD lane-mask constant tables
(src/plugins/GS/GSVector.cpp), as compiled for a non-Windows build:
the _WIN32 conditional code is excluded, exactly as the POSIX
preprocessor would exclude it.
-/

/-- A 128-bit integer vector, as four 32-bit little-endian words.
Mirrors the constructor GSVector4i(int x, int y, int z, int w) used by
GSVector4i::InitVectors; x is the least significant word. -/
structure GSVector4i where
  x : Nat
  y : Nat
  z : Nat
  w : Nat

/-- Word i (0 = least significant) of a GSVector4i. -/
def GSVector4i.wordAt : GSVector4i → Nat → Nat
  | v, 0 => v.x
  | v, 1 => v.y
  | v, 2 => v.z
  | v, _ => v.w

/-- Byte k (0 = least significant, little endian) of a GSVector4i. -/
def GSVector4i.byteAt (v : GSVector4i) (k : Nat) : Nat :=
  v.wordAt (k / 4) / 2 ^ (8 * (k % 4)) % 256

/-- A 256-bit integer vector, as eight 32-bit little-endian words.
Mirrors the 8-argument constructor used by GSVector8i::InitVectors;
the first argument is the least significant word. -/
structure GSVector8i where
  w0 : Nat
  w1 : Nat
  w2 : Nat
  w3 : Nat
  w4 : Nat
  w5 : Nat
  w6 : Nat
  w7 : Nat

/-- Word i (0 = least significant) of a GSVector8i. -/
def GSVector8i.wordAt : GSVector8i → Nat → Nat
  | v, 0 => v.w0
  | v, 1 => v.w1
  | v, 2 => v.w2
  | v, 3 => v.w3
  | v, 4 => v.w4
  | v, 5 => v.w5
  | v, 6 => v.w6
  | v, _ => v.w7

/-- Byte k (0 = least significant, little endian) of a GSVector8i. -/
def GSVector8i.byteAt (v : GSVector8i) (k : Nat) : Nat :=
  v.wordAt (k / 4) / 2 ^ (8 * (k % 4)) % 256

def GSVector4i_m_xff : List GSVector4i :=
  [
    GSVector4i.mk 0x00000000 0x00000000 0x00000000 0x00000000,
    GSVector4i.mk 0x000000ff 0x00000000 0x00000000 0x00000000,
    GSVector4i.mk 0x0000ffff 0x00000000 0x00000000 0x00000000,
    GSVector4i.mk 0x00ffffff 0x00000000 0x00000000 0x00000000,
    GSVector4i.mk 0xffffffff 0x00000000 0x00000000 0x00000000,
    GSVector4i.mk 0xffffffff 0x000000ff 0x00000000 0x00000000,
    GSVector4i.mk 0xffffffff 0x0000ffff 0x00000000 0x00000000,
    GSVector4i.mk 0xffffffff 0x00ffffff 0x00000000 0x00000000,
    GSVector4i.mk 0xffffffff 0xffffffff 0x00000000 0x00000000,
    GSVector4i.mk 0xffffffff 0xffffffff 0x000000ff 0x00000000,
    GSVector4i.mk 0xffffffff 0xffffffff 0x0000ffff 0x00000000,
    GSVector4i.mk 0xffffffff 0xffffffff 0x00ffffff 0x00000000,
    GSVector4i.mk 0xffffffff 0xffffffff 0xffffffff 0x00000000,
    GSVector4i.mk 0xffffffff 0xffffffff 0xffffffff 0x000000ff,
    GSVector4i.mk 0xffffffff 0xffffffff 0xffffffff 0x0000ffff,
    GSVector4i.mk 0xffffffff 0xffffffff 0xffffffff 0x00ffffff,
    GSVector4i.mk 0xffffffff 0xffffffff 0xffffffff 0xffffffff
  ]

def GSVector4i_m_x0f : List GSVector4i :=
  [
    GSVector4i.mk 0x00000000 0x00000000 0x00000000 0x00000000,
    GSVector4i.mk 0x0000000f 0x00000000 0x00000000 0x00000000,
    GSVector4i.mk 0x00000f0f 0x00000000 0x00000000 0x00000000,
    GSVector4i.mk 0x000f0f0f 0x00000000 0x00000000 0x00000000,
    GSVector4i.mk 0x0f0f0f0f 0x00000000 0x00000000 0x00000000,
    GSVector4i.mk 0x0f0f0f0f 0x0000000f 0x00000000 0x00000000,
    GSVector4i.mk 0x0f0f0f0f 0x00000f0f 0x00000000 0x00000000,
    GSVector4i.mk 0x0f0f0f0f 0x000f0f0f 0x00000000 0x00000000,
    GSVector4i.mk 0x0f0f0f0f 0x0f0f0f0f 0x00000000 0x00000000,
    GSVector4i.mk 0x0f0f0f0f 0x0f0f0f0f 0x0000000f 0x00000000,
    GSVector4i.mk 0x0f0f0f0f 0x0f0f0f0f 0x00000f0f 0x00000000,
    GSVector4i.mk 0x0f0f0f0f 0x0f0f0f0f 0x000f0f0f 0x00000000,
    GSVector4i.mk 0x0f0f0f0f 0x0f0f0f0f 0x0f0f0f0f 0x00000000,
    GSVector4i.mk 0x0f0f0f0f 0x0f0f0f0f 0x0f0f0f0f 0x0000000f,
    GSVector4i.mk 0x0f0f0f0f 0x0f0f0f0f 0x0f0f0f0f 0x00000f0f,
    GSVector4i.mk 0x0f0f0f0f 0x0f0f0f0f 0x0f0f0f0f 0x000f0f0f,
    GSVector4i.mk 0x0f0f0f0f 0x0f0f0f0f 0x0f0f0f0f 0x0f0f0f0f
  ]

def GSVector8i_m_xff : List GSVector8i :=
  [
    GSVector8i.mk 0x00000000 0x00000000 0x00000000 0x00000000 0x00000000 0x00000000 0x00000000 0x00000000,
    GSVector8i.mk 0x000000ff 0x00000000 0x00000000 0x00000000 0x00000000 0x00000000 0x00000000 0x00000000,
    GSVector8i.mk 0x0000ffff 0x00000000 0x00000000 0x00000000 0x00000000 0x00000000 0x00000000 0x00000000,
    GSVector8i.mk 0x00ffffff 0x00000000 0x00000000 0x00000000 0x00000000 0x00000000 0x00000000 0x00000000,
    GSVector8i.mk 0xffffffff 0x00000000 0x00000000 0x00000000 0x00000000 0x00000000 0x00000000 0x00000000,
    GSVector8i.mk 0xffffffff 0x000000ff 0x00000000 0x00000000 0x00000000 0x00000000 0x00000000 0x00000000,
    GSVector8i.mk 0xffffffff 0x0000ffff 0x00000000 0x00000000 0x00000000 0x00000000 0x00000000 0x00000000,
    GSVector8i.mk 0xffffffff 0x00ffffff 0x00000000 0x00000000 0x00000000 0x00000000 0x00000000 0x00000000,
    GSVector8i.mk 0xffffffff 0xffffffff 0x00000000 0x00000000 0x00000000 0x00000000 0x00000000 0x00000000,
    GSVector8i.mk 0xffffffff 0xffffffff 0x000000ff 0x00000000 0x00000000 0x00000000 0x00000000 0x00000000,
    GSVector8i.mk 0xffffffff 0xffffffff 0x0000ffff 0x00000000 0x00000000 0x00000000 0x00000000 0x00000000,
    GSVector8i.mk 0xffffffff 0xffffffff 0x00ffffff 0x00000000 0x00000000 0x00000000 0x00000000 0x00000000,
    GSVector8i.mk 0xffffffff 0xffffffff 0xffffffff 0x00000000 0x00000000 0x00000000 0x00000000 0x00000000,
    GSVector8i.mk 0xffffffff 0xffffffff 0xffffffff 0x000000ff 0x00000000 0x00000000 0x00000000 0x00000000,
    GSVector8i.mk 0xffffffff 0xffffffff 0xffffffff 0x0000ffff 0x00000000 0x00000000 0x00000000 0x00000000,
    GSVector8i.mk 0xffffffff 0xffffffff 0xffffffff 0x00ffffff 0x00000000 0x00000000 0x00000000 0x00000000,
    GSVector8i.mk 0xffffffff 0xffffffff 0xffffffff 0xffffffff 0x00000000 0x00000000 0x00000000 0x00000000,
    GSVector8i.mk 0xffffffff 0xffffffff 0xffffffff 0xffffffff 0x000000ff 0x00000000 0x00000000 0x00000000,
    GSVector8i.mk 0xffffffff 0xffffffff 0xffffffff 0xffffffff 0x0000ffff 0x00000000 0x00000000 0x00000000,
    GSVector8i.mk 0xffffffff 0xffffffff 0xffffffff 0xffffffff 0x00ffffff 0x00000000 0x00000000 0x00000000,
    GSVector8i.mk 0xffffffff 0xffffffff 0xffffffff 0xffffffff 0xffffffff 0x00000000 0x00000000 0x00000000,
    GSVector8i.mk 0xffffffff 0xffffffff 0xffffffff 0xffffffff 0xffffffff 0x000000ff 0x00000000 0x00000000,
    GSVector8i.mk 0xffffffff 0xffffffff 0xffffffff 0xffffffff 0xffffffff 0x0000ffff 0x00000000 0x00000000,
    GSVector8i.mk 0xffffffff 0xffffffff 0xffffffff 0xffffffff 0xffffffff 0x00ffffff 0x00000000 0x00000000,
    GSVector8i.mk 0xffffffff 0xffffffff 0xffffffff 0xffffffff 0xffffffff 0xffffffff 0x00000000 0x00000000,
    GSVector8i.mk 0xffffffff 0xffffffff 0xffffffff 0xffffffff 0xffffffff 0xffffffff 0x000000ff 0x00000000,
    GSVector8i.mk 0xffffffff 0xffffffff 0xffffffff 0xffffffff 0xffffffff 0xffffffff 0x0000ffff 0x00000000,
    GSVector8i.mk 0xffffffff 0xffffffff 0xffffffff 0xffffffff 0xffffffff 0xffffffff 0x00ffffff 0x00000000,
    GSVector8i.mk 0xffffffff 0xffffffff 0xffffffff 0xffffffff 0xffffffff 0xffffffff 0xffffffff 0x00000000,
    GSVector8i.mk 0xffffffff 0xffffffff 0xffffffff 0xffffffff 0xffffffff 0xffffffff 0xffffffff 0x000000ff,
    GSVector8i.mk 0xffffffff 0xffffffff 0xffffffff 0xffffffff 0xffffffff 0xffffffff 0xffffffff 0x0000ffff,
    GSVector8i.mk 0xffffffff 0xffffffff 0xffffffff 0xffffffff 0xffffffff 0xffffffff 0xffffffff 0x00ffffff,
    GSVector8i.mk 0xffffffff 0xffffffff 0xffffffff 0xffffffff 0xffffffff 0xffffffff 0xffffffff 0xffffffff
  ]

def GSVector8i_m_x0f : List GSVector8i :=
  [
    GSVector8i.mk 0x00000000 0x00000000 0x00000000 0x00000000 0x00000000 0x00000000 0x00000000 0x00000000,
    GSVector8i.mk 0x0000000f 0x00000000 0x00000000 0x00000000 0x00000000 0x00000000 0x00000000 0x00000000,
    GSVector8i.mk 0x00000f0f 0x00000000 0x00000000 0x00000000 0x00000000 0x00000000 0x00000000 0x00000000,
    GSVector8i.mk 0x000f0f0f 0x00000000 0x00000000 0x00000000 0x00000000 0x00000000 0x00000000 0x00000000,
    GSVector8i.mk 0x0f0f0f0f 0x00000000 0x00000000 0x00000000 0x00000000 0x00000000 0x00000000 0x00000000,
    GSVector8i.mk 0x0f0f0f0f 0x0000000f 0x00000000 0x00000000 0x00000000 0x00000000 0x00000000 0x00000000,
    GSVector8i.mk 0x0f0f0f0f 0x00000f0f 0x00000000 0x00000000 0x00000000 0x00000000 0x00000000 0x00000000,
    GSVector8i.mk 0x0f0f0f0f 0x000f0f0f 0x00000000 0x00000000 0x00000000 0x00000000 0x00000000 0x00000000,
    GSVector8i.mk 0x0f0f0f0f 0x0f0f0f0f 0x00000000 0x00000000 0x00000000 0x00000000 0x00000000 0x00000000,
    GSVector8i.mk 0x0f0f0f0f 0x0f0f0f0f 0x0000000f 0x00000000 0x00000000 0x00000000 0x00000000 0x00000000,
    GSVector8i.mk 0x0f0f0f0f 0x0f0f0f0f 0x00000f0f 0x00000000 0x00000000 0x00000000 0x00000000 0x00000000,
    GSVector8i.mk 0x0f0f0f0f 0x0f0f0f0f 0x000f0f0f 0x00000000 0x00000000 0x00000000 0x00000000 0x00000000,
    GSVector8i.mk 0x0f0f0f0f 0x0f0f0f0f 0x0f0f0f0f 0x00000000 0x00000000 0x00000000 0x00000000 0x00000000,
    GSVector8i.mk 0x0f0f0f0f 0x0f0f0f0f 0x0f0f0f0f 0x0000000f 0x00000000 0x00000000 0x00000000 0x00000000,
    GSVector8i.mk 0x0f0f0f0f 0x0f0f0f0f 0x0f0f0f0f 0x00000f0f 0x00000000 0x00000000 0x00000000 0x00000000,
    GSVector8i.mk 0x0f0f0f0f 0x0f0f0f0f 0x0f0f0f0f 0x000f0f0f 0x00000000 0x00000000 0x00000000 0x00000000,
    GSVector8i.mk 0x0f0f0f0f 0x0f0f0f0f 0x0f0f0f0f 0x0f0f0f0f 0x00000000 0x00000000 0x00000000 0x00000000,
    GSVector8i.mk 0x0f0f0f0f 0x0f0f0f0f 0x0f0f0f0f 0x0f0f0f0f 0x0000000f 0x00000000 0x00000000 0x00000000,
    GSVector8i.mk 0x0f0f0f0f 0x0f0f0f0f 0x0f0f0f0f 0x0f0f0f0f 0x00000f0f 0x00000000 0x00000000 0x00000000,
    GSVector8i.mk 0x0f0f0f0f 0x0f0f0f0f 0x0f0f0f0f 0x0f0f0f0f 0x000f0f0f 0x00000000 0x00000000 0x00000000,
    GSVector8i.mk 0x0f0f0f0f 0x0f0f0f0f 0x0f0f0f0f 0x0f0f0f0f 0x0f0f0f0f 0x00000000 0x00000000 0x00000000,
    GSVector8i.mk 0x0f0f0f0f 0x0f0f0f0f 0x0f0f0f0f 0x0f0f0f0f 0x0f0f0f0f 0x0000000f 0x00000000 0x00000000,
    GSVector8i.mk 0x0f0f0f0f 0x0f0f0f0f 0x0f0f0f0f 0x0f0f0f0f 0x0f0f0f0f 0x00000f0f 0x00000000 0x00000000,
    GSVector8i.mk 0x0f0f0f0f 0x0f0f0f0f 0x0f0f0f0f 0x0f0f0f0f 0x0f0f0f0f 0x000f0f0f 0x00000000 0x00000000,
    GSVector8i.mk 0x0f0f0f0f 0x0f0f0f0f 0x0f0f0f0f 0x0f0f0f0f 0x0f0f0f0f 0x0f0f0f0f 0x00000000 0x00000000,
    GSVector8i.mk 0x0f0f0f0f 0x0f0f0f0f 0x0f0f0f0f 0x0f0f0f0f 0x0f0f0f0f 0x0f0f0f0f 0x0000000f 0x00000000,
    GSVector8i.mk 0x0f0f0f0f 0x0f0f0f0f 0x0f0f0f0f 0x0f0f0f0f 0x0f0f0f0f 0x0f0f0f0f 0x00000f0f 0x00000000,
    GSVector8i.mk 0x0f0f0f0f 0x0f0f0f0f 0x0f0f0f0f 0x0f0f0f0f 0x0f0f0f0f 0x0f0f0f0f 0x000f0f0f 0x00000000,
    GSVector8i.mk 0x0f0f0f0f 0x0f0f0f0f 0x0f0f0f0f 0x0f0f0f0f 0x0f0f0f0f 0x0f0f0f0f 0x0f0f0f0f 0x00000000,
    GSVector8i.mk 0x0f0f0f0f 0x0f0f0f0f 0x0f0f0f0f 0x0f0f0f0f 0x0f0f0f0f 0x0f0f0f0f 0x0f0f0f0f 0x0000000f,
    GSVector8i.mk 0x0f0f0f0f 0x0f0f0f0f 0x0f0f0f0f 0x0f0f0f0f 0x0f0f0f0f 0x0f0f0f0f 0x0f0f0f0f 0x00000f0f,
    GSVector8i.mk 0x0f0f0f0f 0x0f0f0f0f 0x0f0f0f0f 0x0f0f0f0f 0x0f0f0f0f 0x0f0f0f0f 0x0f0f0f0f 0x000f0f0f,
    GSVector8i.mk 0x0f0f0f0f 0x0f0f0f0f 0x0f0f0f0f 0x0f0f0f0f 0x0f0f0f0f 0x0f0f0f0f 0x0f0f0f0f 0x0f0f0f0f
  ]

/-- Claim C5: after InitVectors runs, for every n in [0, W] (W = 16 for
GSVector4i, W = 32 for GSVector8i) the table entry xff[n] has exactly its
low n bytes equal to 0xff and the remaining W - n bytes equal to 0x00
(hence xff[W] is all-ones and xff[0] all-zero), and x0f[n] has exactly its
low n bytes equal to 0x0f and the remaining bytes zero. InitVectors only
copies these literal arrays into the static tables m_xff and m_x0f, so the
static tables equal the literals stated here. -/
theorem c5_lane_mask_tables :
    (∀ n : Fin 17, ∀ k : Fin 16,
      (GSVector4i_m_xff.getD n.val (GSVector4i.mk 0 0 0 0)).byteAt k.val
        = if k.val < n.val then 0xff else 0)
    ∧ (∀ n : Fin 17, ∀ k : Fin 16,
      (GSVector4i_m_x0f.getD n.val (GSVector4i.mk 0 0 0 0)).byteAt k.val
        = if k.val < n.val then 0x0f else 0)
    ∧ (∀ n : Fin 33, ∀ k : Fin 32,
      (GSVector8i_m_xff.getD n.val (GSVector8i.mk 0 0 0 0 0 0 0 0)).byteAt k.val
        = if k.val < n.val then 0xff else 0)
    ∧ (∀ n : Fin 33, ∀ k : Fin 32,
      (GSVector8i_m_x0f.getD n.val (GSVector8i.mk 0 0 0 0 0 0 0 0)).byteAt k.val
        = if k.val < n.val then 0x0f else 0) := by
  refine ⟨?_, ?_, ?_, ?_⟩ <;> decide

/-! ## Renderer/device lifecycle (src/plugins/GS/GS.cpp) -/

/-- The renderer-variant enumeration GSRendererType, restricted to the
values this translation unit uses (GS.cpp lines 990-1103). -/
inductive GSRendererType where
  | Undefined
  | DX1011_HW
  | OGL_HW
  | OGL_SW
  | Null
  deriving DecidableEq

/-- Concrete device class chosen by the device-construction switch in
_GSopen (GS.cpp lines 990-1007). In a non-Windows build the default label
and DX1011_HW fall through to the GSDeviceOGL case. -/
inductive DeviceClass where
  | DeviceOGL
  | DeviceNull
  deriving DecidableEq

/-- Concrete renderer class chosen by the renderer-construction switch in
_GSopen (GS.cpp lines 1013-1039). In a non-Windows build the default label
and DX1011_HW fall through to the GSRendererOGL case. -/
inductive RendererClass where
  | RendererOGL
  | RendererSW
  | RendererNull
  deriving DecidableEq

/-- A backend Device object. The id is its heap identity: every object
constructed with new receives a fresh id from the allocation counter. -/
structure GSDevice where
  id : Nat
  cls : DeviceClass
  deriving DecidableEq

/-- A GSRenderer object: heap identity, concrete class, the thread count
a GSRendererSW was constructed with, the owned device pointer m_dev, the
register-memory pointer bound by SetRegsMem, and the log of Transfer
calls (newest first, recording the template path argument, the buffer
pointer and the size argument). -/
structure GSRenderer where
  id : Nat
  cls : RendererClass
  swThreads : Option Int
  m_dev : Option GSDevice
  regsMem : Option Nat
  transfers : List (Nat × Nat × Nat)
  deriving DecidableEq

/-- A recorded invocation of the Renderer state-serialization methods:
Freeze(data, sizeOnly) or Defrost(data). The data pointer is a Nat. -/
inductive FreezeCall where
  | freezeData (data : Nat) (sizeOnly : Bool)
  | defrostData (data : Nat)
  deriving DecidableEq

/-- The mutable globals of GS.cpp plus bookkeeping that makes heap events
observable: s_gs (line 38), m_current_renderer_type (line 39), the
function-static stored_toggle_state of GSopen2 (line 1060), the allocation
counter nextId handing out fresh heap identities, the ids passed to
operator delete (newest first), the renderer ids on which ResetDevice was
invoked, and the log of Renderer Freeze/Defrost invocations. -/
structure GSState where
  s_gs : Option GSRenderer
  m_current_renderer_type : GSRendererType
  stored_toggle_state : Bool
  nextId : Nat
  destroyed : List Nat
  resetDeviceCalls : List Nat
  freezeLog : List FreezeCall
  deriving DecidableEq

/-- The retro hardware-render context type switched on by GSopen2
(GS.cpp lines 1063-1077): RETRO_HW_CONTEXT_DIRECT3D,
RETRO_HW_CONTEXT_NONE, or any other value. -/
inductive ContextType where
  | direct3d
  | noContext
  | other
  deriving DecidableEq

/-- External inputs of the lifecycle code: the host render context, the
result of the Renderer configuration-string comparison in GSopen2 (true
when the option equals Software), the extrathreads configuration value
read for a software renderer, and the success of the device setup done by
GSRenderer::CreateDevice. -/
structure Env where
  ctx : ContextType
  softwareConfig : Bool
  extrathreads : Int
  createOk : Bool
  freezeSaveRet : Int
  freezeSizeRet : Int
  defrostRet : Int

/-- Renderer class selected for a variant by the switch at GS.cpp lines
1015-1036 (non-Windows: default and DX1011_HW fall through to OGL_HW). -/
def rendererClassFor : GSRendererType → RendererClass
  | GSRendererType.OGL_SW => RendererClass.RendererSW
  | GSRendererType.Null => RendererClass.RendererNull
  | _ => RendererClass.RendererOGL

/-- Device class selected for a variant by the switch at GS.cpp lines
990-1007 (non-Windows: default and DX1011_HW fall through to OGL_HW). -/
def deviceClassFor : GSRendererType → DeviceClass
  | GSRendererType.Null => DeviceClass.DeviceNull
  | _ => DeviceClass.DeviceOGL

/-- A freshly constructed renderer for the given variant (GS.cpp lines
1013-1039): GSRendererSW additionally replaces a -1 thread count with the
extrathreads configuration value; all other fields start empty. -/
def newRenderer (renderer : GSRendererType) (threads extrathreads : Int)
    (id : Nat) : GSRenderer :=
  { id := id
    cls := rendererClassFor renderer
    swThreads :=
      if renderer = GSRendererType.OGL_SW then
        some (if threads = -1 then extrathreads else threads)
      else none
    m_dev := none
    regsMem := none
    transfers := [] }

/-- Modelled from the spec: the GSRenderer destructor is not among the
sampled sources; per the spec the Renderer exclusively owns its Device,
which is destroyed when the Renderer is destroyed. These are the heap ids
released by delete s_gs. -/
def destroyIds (r : GSRenderer) : List Nat :=
  r.id :: (match r.m_dev with
           | some d => [d.id]
           | none => [])

/-- Modelled from the spec: GSRenderer::CreateDevice is not among the
sampled sources; per the spec it takes ownership of the passed Device and
returns false, leaving the Renderer unchanged, when device-specific setup
fails. Setup success is the environment oracle ok. -/
def CreateDevice (ok : Bool) (dev : GSDevice) (r : GSRenderer) :
    Option GSRenderer :=
  if ok then some { r with m_dev := some dev } else none

/-- GSclose (GS.cpp lines 98-107): a no-op when s_gs is null; otherwise
calls ResetDevice on the renderer (device-internal hardware teardown, not
among the sampled sources and modelled as the recorded call alone, per the
spec it does not touch the lifecycle state), deletes the owned device and
nulls the m_dev field. delete of a null m_dev releases nothing. -/
def GSclose (s : GSState) : GSState :=
  match s.s_gs with
  | none => s
  | some r =>
    { s with
      s_gs := some { r with m_dev := none }
      resetDeviceCalls := r.id :: s.resetDeviceCalls
      destroyed := (match r.m_dev with
                    | some d => [d.id]
                    | none => []) ++ s.destroyed }

/-- The variant-change teardown at the top of _GSopen (GS.cpp lines
115-126): when the requested variant differs from
m_current_renderer_type, delete s_gs (cascading to its device), null it
and record the new variant. -/
def stepTeardown (renderer : GSRendererType) (s : GSState) : GSState :=
  if s.m_current_renderer_type ≠ renderer then
    match s.s_gs with
    | some r =>
      { s with
        s_gs := none
        m_current_renderer_type := renderer
        destroyed := destroyIds r ++ s.destroyed }
    | none => { s with m_current_renderer_type := renderer }
  else s

/-- The renderer-construction step of _GSopen (GS.cpp lines 1013-1039):
only when s_gs is null is a new renderer constructed. -/
def stepMakeRenderer (renderer : GSRendererType) (threads extrathreads : Int)
    (s : GSState) : GSState :=
  match s.s_gs with
  | some _ => s
  | none =>
    { s with
      s_gs := some (newRenderer renderer threads extrathreads s.nextId)
      nextId := s.nextId + 1 }

/-- SetRegsMem(basemem) (GS.cpp line 1041): binds, without copying, the
register block pointer into the renderer. -/
def stepSetRegs (basemem : Nat) (s : GSState) : GSState :=
  { s with s_gs := s.s_gs.map fun r => { r with regsMem := some basemem } }

/-- Everything _GSopen does before the CreateDevice call (GS.cpp lines
109-1041): teardown on variant change, then unconditional construction of
a new device for the variant (the GL function-pointer loading and
check_gl_requirements at lines 128-988 are an external collaborator, void
at this call site), then renderer construction when s_gs is null, then
SetRegsMem. Returns the state and the pending new device. -/
def _GSopenPre (env : Env) (renderer : GSRendererType) (threads : Int)
    (basemem : Nat) (s : GSState) : GSState × GSDevice :=
  let s1 := stepTeardown renderer s
  let dev : GSDevice := { id := s1.nextId, cls := deviceClassFor renderer }
  let s2 := { s1 with nextId := s1.nextId + 1 }
  let s3 := stepSetRegs basemem (stepMakeRenderer renderer threads env.extrathreads s2)
  (s3, dev)

/-- _GSopen (GS.cpp lines 109-1050). The null checks after operator new
(lines 1009-1010 and 1037-1038) are dead in C++ (new never returns null)
and the s_gs-null branch here is likewise unreachable. On CreateDevice
failure, GSclose is invoked and -1 returned (lines 1043-1047); on success
the renderer owns the new device and 0 is returned. -/
def _GSopen (env : Env) (renderer : GSRendererType) (threads : Int)
    (basemem : Nat) (s : GSState) : Int × GSState :=
  let pre := _GSopenPre env renderer threads basemem s
  match pre.1.s_gs with
  | none => (-1, pre.1)
  | some r =>
    match CreateDevice env.createOk pre.2 r with
    | some r2 => (0, { pre.1 with s_gs := some r2 })
    | none => (-1, GSclose pre.1)

/-- The toggle bit !!(flags & 4) read by GSopen2 (GS.cpp line 1061). -/
def toggleOf (flags : Nat) : Bool := flags &&& 4 != 0

/-- The variant resolved from the host context and the Renderer
configuration option by the first switch of GSopen2 (GS.cpp lines
1063-1077). -/
def resolveBase : ContextType → Bool → GSRendererType
  | ContextType.direct3d, _ => GSRendererType.DX1011_HW
  | ContextType.noContext, _ => GSRendererType.Null
  | ContextType.other, software =>
    if software then GSRendererType.OGL_SW else GSRendererType.OGL_HW

/-- The hardware/software swap applied on a toggle edge (GS.cpp lines
1082-1098); in a non-Windows build the DX1011_HW label is compiled out,
so that value falls into the default branch. -/
def toggleSwap : GSRendererType → GSRendererType
  | GSRendererType.OGL_SW => GSRendererType.OGL_HW
  | GSRendererType.OGL_HW => GSRendererType.OGL_SW
  | _ => GSRendererType.OGL_SW

/-- GSopen2 (GS.cpp lines 1058-1103): reads the toggle bit, overwrites
m_current_renderer_type from the host context/configuration, applies the
hardware/software swap when the freshly resolved variant is not Undefined
and the stored toggle differs from the current one, stores the toggle and
calls _GSopen with the resolved variant and threads = -1. -/
def GSopen2 (env : Env) (flags : Nat) (basemem : Nat) (s : GSState) :
    Int × GSState :=
  let toggle_state := toggleOf flags
  let v0 := resolveBase env.ctx env.softwareConfig
  let v := if v0 ≠ GSRendererType.Undefined ∧ s.stored_toggle_state ≠ toggle_state
           then toggleSwap v0 else v0
  _GSopen env v (-1) basemem
    { s with m_current_renderer_type := v, stored_toggle_state := toggle_state }

/-- Renderer transfer ingestion Transfer with path as template argument
(defined outside the sampled sources). It is modelled as an abstract call
recorder: the entry-point claims below concern only which specialization
each ABI entry point invokes and with which arguments. -/
def GSRenderer.Transfer (r : GSRenderer) (path ptr size : Nat) : GSRenderer :=
  { r with transfers := (path, ptr, size) :: r.transfers }

/-- Subtraction in unsigned 32-bit arithmetic, as the C expression
0x4000 - addr with addr of type u32 computes it. -/
def u32sub (a b : Nat) : Nat := (a + (2 ^ 32 - b % 2 ^ 32)) % 2 ^ 32

/-- GSgifTransfer (GS.cpp lines 1126-1129): Transfer with path 3. -/
def GSgifTransfer (s : GSState) (mem size : Nat) : GSState :=
  { s with s_gs := s.s_gs.map fun r => r.Transfer 3 mem size }

/-- GSgifTransfer1 (GS.cpp lines 1131-1134): Transfer with path 0 on the
buffer mem + addr with size (0x4000 - addr) / 16, the subtraction done in
u32 arithmetic. -/
def GSgifTransfer1 (s : GSState) (mem addr : Nat) : GSState :=
  { s with s_gs := s.s_gs.map fun r =>
      r.Transfer 0 (mem + addr) (u32sub 0x4000 addr / 16) }

/-- GSgifTransfer2 (GS.cpp lines 1136-1139): Transfer with path 1. -/
def GSgifTransfer2 (s : GSState) (mem size : Nat) : GSState :=
  { s with s_gs := s.s_gs.map fun r => r.Transfer 1 mem size }

/-- GSgifTransfer3 (GS.cpp lines 1141-1144): Transfer with path 2. -/
def GSgifTransfer3 (s : GSState) (mem size : Nat) : GSState :=
  { s with s_gs := s.s_gs.map fun r => r.Transfer 2 mem size }

/-- Modelled from the spec: the freeze-mode constant FREEZE_LOAD of the
plugin ABI header, which is not among the sampled sources. Only the
distinctness of the three mode constants matters below. -/
def FREEZE_LOAD : Int := 0

/-- Modelled from the spec: the freeze-mode constant FREEZE_SAVE of the
plugin ABI header, which is not among the sampled sources. -/
def FREEZE_SAVE : Int := 1

/-- Modelled from the spec: the freeze-mode constant FREEZE_SIZE of the
plugin ABI header, which is not among the sampled sources. -/
def FREEZE_SIZE : Int := 2

/-- GSfreeze (GS.cpp lines 1151-1164): dispatches FREEZE_SAVE to
Freeze(data, false), FREEZE_SIZE to Freeze(data, true), FREEZE_LOAD to
Defrost(data) (all three defined outside the sampled sources and modelled
as recorded calls with oracle return values), and returns 0 for every
other mode value without calling anything. -/
def GSfreeze (env : Env) (mode : Int) (data : Nat) (s : GSState) :
    Int × GSState :=
  if mode = FREEZE_SAVE then
    (env.freezeSaveRet, { s with freezeLog := FreezeCall.freezeData data false :: s.freezeLog })
  else if mode = FREEZE_SIZE then
    (env.freezeSizeRet, { s with freezeLog := FreezeCall.freezeData data true :: s.freezeLog })
  else if mode = FREEZE_LOAD then
    (env.defrostRet, { s with freezeLog := FreezeCall.defrostData data :: s.freezeLog })
  else (0, s)

/-! ## The POSIX fifo_alloc (GS.cpp lines 1292-1312)

Virtual memory is modelled as a list of mapping segments
(start address, length, offset into the single shared-memory object),
newest first: a MAP_FIXED mmap shadows whatever it overlaps, exactly as
it replaces existing pages. -/

/-- One mapping segment: start address, byte length, and the offset into
the shared-memory object at which the segment begins. -/
abbrev Seg := Nat × Nat × Nat

/-- Reading the backing-object offset a virtual address resolves to:
the newest mapping covering the address wins; none when unmapped. -/
def lookupMem : List Seg → Nat → Option Nat
  | [], _ => none
  | (b, len, off) :: rest, a =>
    if b ≤ a ∧ a < b + len then some (off + (a - b)) else lookupMem rest a

/-- The POSIX MAP_FAILED sentinel, (void*)-1 as a 64-bit address. -/
def MAP_FAILED : Nat := 2 ^ 64 - 1

/-- External outcomes of the system calls fifo_alloc makes: whether
shm_open succeeds, the address the initial full-size mmap returns (and
whether it succeeds), and whether the i-th MAP_FIXED mmap succeeds. The
source checks none of the mmap results. -/
structure FifoEnv where
  shmOpenOk : Bool
  mmapBase : Nat
  mmapBaseOk : Bool
  fixedOk : Nat → Bool

/-- The loop for (i = 1; i < repeat; i++) of the POSIX fifo_alloc
(GS.cpp lines 1305-1309): each iteration issues
mmap(fifo + size * i, size, MAP_SHARED | MAP_FIXED, fd, 0) and ignores
the result; a successful call maps object offset 0 at that address,
a failed one changes nothing. fuel is the remaining iteration count. -/
def fifoMapAux (env : FifoEnv) (base size : Nat) :
    Nat → Nat → List Seg → List Seg
  | _, 0, mem => mem
  | i, fuel + 1, mem =>
    fifoMapAux env base size (i + 1) fuel
      (if env.fixedOk i then (base + size * i, size, 0) :: mem else mem)

/-- The POSIX fifo_alloc (GS.cpp lines 1294-1312): returns null only when
shm_open fails. The file is sized to repeat * size, the initial mmap maps
the whole range linearly (when it fails, the unchecked MAP_FAILED value
is used as the base), and the loop remaps each later segment onto object
offset 0, never checking for failure. The function returns the base
pointer and, in this model, also the resulting mapping list. -/
def fifo_alloc (env : FifoEnv) (size rpt : Nat) : Option Nat × List Seg :=
  if env.shmOpenOk then
    let fifo := if env.mmapBaseOk then env.mmapBase else MAP_FAILED
    let mem0 : List Seg :=
      if env.mmapBaseOk then [(env.mmapBase, size * rpt, 0)] else []
    (some fifo, fifoMapAux env fifo size 1 (rpt - 1) mem0)
  else (none, [])

/-- Decidable statement that every address of every one of the first rpt
segments after base resolves to the matching offset of the backing
object: the self-aliasing ring property. -/
def aliasedUpTo (mem : List Seg) (base size rpt : Nat) : Bool :=
  (List.range rpt).all fun i =>
    (List.range size).all fun j =>
      lookupMem mem (base + size * i + j) == some j

/-! ## Test fixtures and projection lemmas -/

/-- The global state right after GSinit/GSdxApp::Init: no renderer,
m_current_renderer_type = Undefined (GS.cpp line 1361), the GSopen2
function-static stored_toggle_state = false (line 1060), empty logs. -/
def initialState : GSState :=
  { s_gs := none
    m_current_renderer_type := GSRendererType.Undefined
    stored_toggle_state := false
    nextId := 0
    destroyed := []
    resetDeviceCalls := []
    freezeLog := [] }

/-- An environment whose host context forces no backend, whose Renderer
configuration option is not Software, and in which device setup succeeds. -/
def envT : Env :=
  { ctx := ContextType.other
    softwareConfig := false
    extrathreads := 2
    createOk := true
    freezeSaveRet := 101
    freezeSizeRet := 102
    defrostRet := 103 }

/-- The same environment with failing device setup. -/
def envF : Env := { envT with createOk := false }

/-- The state after one successful _GSopen of the OGL_HW variant with
basemem pointer 7 from the initial state. -/
def stA : GSState := (_GSopen envT GSRendererType.OGL_HW (-1) 7 initialState).2

lemma GSclose_current (s : GSState) :
    (GSclose s).m_current_renderer_type = s.m_current_renderer_type := by
  unfold GSclose
  rcases hsg : s.s_gs with _ | r <;> simp [hsg]

lemma GSclose_stored (s : GSState) :
    (GSclose s).stored_toggle_state = s.stored_toggle_state := by
  unfold GSclose
  rcases hsg : s.s_gs with _ | r <;> simp [hsg]

lemma _GSopenPre_current (env : Env) (v : GSRendererType) (threads : Int)
    (p : Nat) (s : GSState) :
    ((_GSopenPre env v threads p s).1).m_current_renderer_type = v := by
  unfold _GSopenPre stepSetRegs stepMakeRenderer stepTeardown
  by_cases h : s.m_current_renderer_type = v
  · rcases hsg : s.s_gs with _ | r <;> simp [hsg, h]
  · rcases hsg : s.s_gs with _ | r <;> simp [hsg, h]

lemma _GSopenPre_stored (env : Env) (v : GSRendererType) (threads : Int)
    (p : Nat) (s : GSState) :
    ((_GSopenPre env v threads p s).1).stored_toggle_state = s.stored_toggle_state := by
  unfold _GSopenPre stepSetRegs stepMakeRenderer stepTeardown
  by_cases h : s.m_current_renderer_type = v
  · rcases hsg : s.s_gs with _ | r <;> simp [hsg, h]
  · rcases hsg : s.s_gs with _ | r <;> simp [hsg, h]

lemma _GSopen_current (env : Env) (v : GSRendererType) (threads : Int)
    (p : Nat) (s : GSState) :
    ((_GSopen env v threads p s).2).m_current_renderer_type = v := by
  unfold _GSopen CreateDevice
  rcases hsg : ((_GSopenPre env v threads p s).1).s_gs with _ | r
  · simpa [hsg] using _GSopenPre_current env v threads p s
  · by_cases hok : env.createOk
    · simpa [hsg, hok] using _GSopenPre_current env v threads p s
    · simp [hsg, hok, GSclose_current, _GSopenPre_current]

lemma _GSopen_stored (env : Env) (v : GSRendererType) (threads : Int)
    (p : Nat) (s : GSState) :
    ((_GSopen env v threads p s).2).stored_toggle_state = s.stored_toggle_state := by
  unfold _GSopen CreateDevice
  rcases hsg : ((_GSopenPre env v threads p s).1).s_gs with _ | r
  · simpa [hsg] using _GSopenPre_stored env v threads p s
  · by_cases hok : env.createOk
    · simpa [hsg, hok] using _GSopenPre_stored env v threads p s
    · simp [hsg, hok, GSclose_stored, _GSopenPre_stored]

/-- The device allocated by the first open from the initial state. -/
def devA : GSDevice := { id := 0, cls := DeviceClass.DeviceOGL }

/-- The renderer as it exists inside stA: id 1, OGL class, owning devA,
bound to register memory 7. -/
def rA : GSRenderer :=
  { id := 1
    cls := RendererClass.RendererOGL
    swThreads := none
    m_dev := some devA
    regsMem := some 7
    transfers := [] }

/-! ## Claims C1 and C2: the _GSopen lifecycle transitions -/

/-- Claim C1, counterexample: two successive _GSopen calls with the same
variant OGL_HW and the same basemem pointer 7 keep the Renderer object
identity, but the Device owned by the Renderer after the second call is a
freshly allocated object, not the one it owned before — so the second
call is not a no-op with both identities unchanged, refuting the claim at
this concrete input. -/
theorem c1_counterexample :
    (stA.s_gs.map GSRenderer.id
      = (((_GSopen envT GSRendererType.OGL_HW (-1) 7 stA).2).s_gs.map GSRenderer.id))
    ∧ (stA.s_gs.map GSRenderer.m_dev
      ≠ (((_GSopen envT GSRendererType.OGL_HW (-1) 7 stA).2).s_gs.map GSRenderer.m_dev)) := by
  decide

/-- Claim C1 as amended: a second _GSopen with the current variant and a
live Renderer never tears anything down — the Renderer object (and all
its fields other than the bound register pointer and the owned device) is
identical before and after — but each call constructs a fresh Device and,
on CreateDevice success, that fresh Device replaces the previously owned
one, which is neither kept nor destroyed; the call returns 0. -/
theorem c1_open_same_variant_fresh_device (env : Env) (v : GSRendererType)
    (threads : Int) (p : Nat) (s : GSState) (r : GSRenderer)
    (hcur : s.m_current_renderer_type = v) (hr : s.s_gs = some r)
    (hok : env.createOk = true) :
    _GSopen env v threads p s =
      (0, { s with
            s_gs := some { r with
                           regsMem := some p
                           m_dev := some { id := s.nextId, cls := deviceClassFor v } }
            nextId := s.nextId + 1 }) := by
  subst hcur
  simp [_GSopen, _GSopenPre, stepTeardown, stepMakeRenderer, stepSetRegs,
    CreateDevice, hr, hok]

/-- Claim C1 witness: the amended theorem applied at the concrete state
reached by one successful open of OGL_HW with basemem 7. -/
theorem c1_witness :
    stA.m_current_renderer_type = GSRendererType.OGL_HW
    ∧ stA.s_gs = some rA
    ∧ envT.createOk = true
    ∧ _GSopen envT GSRendererType.OGL_HW (-1) 7 stA =
      (0, { stA with
            s_gs := some { rA with
                           regsMem := some (7:Nat)
                           m_dev := some { id := stA.nextId, cls := deviceClassFor GSRendererType.OGL_HW } }
            nextId := stA.nextId + 1 }) :=
  ⟨by decide, by decide, by decide,
    c1_open_same_variant_fresh_device envT GSRendererType.OGL_HW (-1) 7 stA rA
      (by decide) (by decide) (by decide)⟩

/-- Claim C2: _GSopen with a requested variant B different from the
current one first destroys the live Renderer — the delete cascading to
its owned Device, both heap ids being released — and then builds a wholly
fresh Device and a wholly fresh default-constructed Renderer for B (only
the basemem pointer and the new device are then bound into it), so no
state of the old Renderer is carried over; the fresh Renderer id also
differs from the old one. -/
theorem c2_open_variant_change_fresh_state (env : Env) (B : GSRendererType)
    (threads : Int) (p : Nat) (s : GSState) (r : GSRenderer)
    (hne : s.m_current_renderer_type ≠ B) (hr : s.s_gs = some r)
    (hok : env.createOk = true) (hid : r.id < s.nextId) :
    (_GSopen env B threads p s =
      (0, { s with
            s_gs := some { newRenderer B threads env.extrathreads (s.nextId + 1) with
                           regsMem := some p
                           m_dev := some { id := s.nextId, cls := deviceClassFor B } }
            m_current_renderer_type := B
            nextId := s.nextId + 2
            destroyed := destroyIds r ++ s.destroyed }))
    ∧ s.nextId + 1 ≠ r.id := by
  constructor
  · simp [_GSopen, _GSopenPre, stepTeardown, stepMakeRenderer, stepSetRegs,
      CreateDevice, hne, hr, hok]
  · omega

/-- Claim C2 witness: opening OGL_SW from the concrete OGL_HW state stA
tears down the old renderer (heap ids 1 and 0) and builds fresh objects. -/
theorem c2_witness :
    stA.m_current_renderer_type ≠ GSRendererType.OGL_SW
    ∧ stA.s_gs = some rA
    ∧ envT.createOk = true
    ∧ rA.id < stA.nextId
    ∧ ((_GSopen envT GSRendererType.OGL_SW (-1) 9 stA =
        (0, { stA with
              s_gs := some { newRenderer GSRendererType.OGL_SW (-1) envT.extrathreads (stA.nextId + 1) with
                             regsMem := some (9:Nat)
                             m_dev := some { id := stA.nextId, cls := deviceClassFor GSRendererType.OGL_SW } }
              m_current_renderer_type := GSRendererType.OGL_SW
              nextId := stA.nextId + 2
              destroyed := destroyIds rA ++ stA.destroyed }))
      ∧ stA.nextId + 1 ≠ rA.id) :=
  ⟨by decide, by decide, by decide, by decide,
    c2_open_variant_change_fresh_state envT GSRendererType.OGL_SW (-1) 9 stA rA
      (by decide) (by decide) (by decide) (by decide)⟩

/-! ## Claims C3 and C4: the GSopen2 toggle policy -/

lemma resolveBase_ne_undefined (ctx : ContextType) (cfg : Bool) :
    resolveBase ctx cfg ≠ GSRendererType.Undefined := by
  cases ctx <;> cases cfg <;> simp [resolveBase]

lemma GSopen2_current (env : Env) (f p : Nat) (s : GSState) :
    ((GSopen2 env f p s).2).m_current_renderer_type =
      (if resolveBase env.ctx env.softwareConfig ≠ GSRendererType.Undefined
          ∧ s.stored_toggle_state ≠ toggleOf f
       then toggleSwap (resolveBase env.ctx env.softwareConfig)
       else resolveBase env.ctx env.softwareConfig) :=
  _GSopen_current env _ (-1) p _

lemma GSopen2_stored (env : Env) (f p : Nat) (s : GSState) :
    ((GSopen2 env f p s).2).stored_toggle_state = toggleOf f :=
  _GSopen_stored env _ (-1) p _

/-- Claim C3: with the host context not forcing a backend and the
configuration selecting hardware, a GSopen2 call whose toggle bit (bit 2
of flags) differs from the stored state of the previous call resolves the
variant to OGL_SW; the next call with the bit held constant resolves back
to OGL_HW (the first switch of GSopen2 recomputes the variant from the
configuration on every call), and a further call with the bit still
constant causes no further change. -/
theorem c3_open2_toggle_edge_cycle (env : Env) (s : GSState)
    (f1 f2 f3 p1 p2 p3 : Nat)
    (hctx : env.ctx = ContextType.other) (hcfg : env.softwareConfig = false)
    (_hcur : s.m_current_renderer_type = GSRendererType.OGL_HW)
    (hedge : toggleOf f1 ≠ s.stored_toggle_state)
    (h12 : toggleOf f2 = toggleOf f1) (h23 : toggleOf f3 = toggleOf f2) :
    (((GSopen2 env f1 p1 s).2).m_current_renderer_type = GSRendererType.OGL_SW)
    ∧ (((GSopen2 env f2 p2 (GSopen2 env f1 p1 s).2).2).m_current_renderer_type
        = GSRendererType.OGL_HW)
    ∧ (((GSopen2 env f3 p3 (GSopen2 env f2 p2 (GSopen2 env f1 p1 s).2).2).2).m_current_renderer_type
        = GSRendererType.OGL_HW) := by
  have hres : resolveBase env.ctx env.softwareConfig = GSRendererType.OGL_HW := by
    rw [hctx, hcfg]; rfl
  have h1c := GSopen2_current env f1 p1 s
  have h1t := GSopen2_stored env f1 p1 s
  have h2c := GSopen2_current env f2 p2 (GSopen2 env f1 p1 s).2
  have h2t := GSopen2_stored env f2 p2 (GSopen2 env f1 p1 s).2
  have h3c := GSopen2_current env f3 p3 (GSopen2 env f2 p2 (GSopen2 env f1 p1 s).2).2
  rw [hres] at h1c h2c h3c
  rw [h1t, h12] at h2c
  rw [h2t, h23, h12] at h3c
  refine ⟨?_, ?_, ?_⟩
  · rw [h1c, if_pos ⟨by simp, Ne.symm hedge⟩]; rfl
  · rw [h2c, if_neg]; simp
  · rw [h3c, if_neg]; simp

/-- Claim C3 witness: from the concrete OGL_HW state stA (stored toggle
false), flags 4 then 4 then 4 produce OGL_SW, OGL_HW, OGL_HW. -/
theorem c3_witness :
    envT.ctx = ContextType.other
    ∧ envT.softwareConfig = false
    ∧ stA.m_current_renderer_type = GSRendererType.OGL_HW
    ∧ toggleOf 4 ≠ stA.stored_toggle_state
    ∧ toggleOf 4 = toggleOf 4
    ∧ ((((GSopen2 envT 4 11 stA).2).m_current_renderer_type = GSRendererType.OGL_SW)
      ∧ (((GSopen2 envT 4 12 (GSopen2 envT 4 11 stA).2).2).m_current_renderer_type
          = GSRendererType.OGL_HW)
      ∧ (((GSopen2 envT 4 13 (GSopen2 envT 4 12 (GSopen2 envT 4 11 stA).2).2).2).m_current_renderer_type
          = GSRendererType.OGL_HW)) :=
  ⟨by decide, by decide, by decide, by decide, by decide,
    c3_open2_toggle_edge_cycle envT stA 4 4 4 11 12 13
      (by decide) (by decide) (by decide) (by decide) (by decide) (by decide)⟩

/-- Claim C4, counterexample: on the very first GSopen2 call (current
variant Undefined, stored toggle state false), with the host context not
forcing a backend and the configuration selecting hardware, a flags value
with bit 2 set resolves the variant to OGL_SW — the hardware/software
swap is applied — even though the host context and configuration alone
resolve to OGL_HW. The toggle edge is therefore not ignored on the first
call, refuting the claim at this concrete input. -/
theorem c4_counterexample :
    initialState.m_current_renderer_type = GSRendererType.Undefined
    ∧ initialState.stored_toggle_state = false
    ∧ resolveBase envT.ctx envT.softwareConfig = GSRendererType.OGL_HW
    ∧ ((GSopen2 envT 4 0 initialState).2).m_current_renderer_type
        = GSRendererType.OGL_SW := by
  decide

/-- Claim C4 as amended: the first switch of GSopen2 overwrites the
current variant from the host context and configuration before the
Undefined guard is evaluated, and that resolution never yields Undefined,
so the guard never suppresses the toggle: on the very first call (stored
toggle state still false) the resolved variant is the context/
configuration resolution when flags bit 2 is clear, and the
hardware/software swap of that resolution when flags bit 2 is set. -/
theorem c4_first_call_toggle_applied (env : Env) (f p : Nat) (s : GSState)
    (_hcur : s.m_current_renderer_type = GSRendererType.Undefined)
    (hst : s.stored_toggle_state = false) :
    ((GSopen2 env f p s).2).m_current_renderer_type =
      (if toggleOf f then toggleSwap (resolveBase env.ctx env.softwareConfig)
       else resolveBase env.ctx env.softwareConfig) := by
  have h := GSopen2_current env f p s
  rw [hst] at h
  cases htog : toggleOf f
  · rw [htog] at h; rw [h, if_neg]; · rfl
    · simp
  · rw [htog] at h
    rw [h, if_pos ⟨resolveBase_ne_undefined env.ctx env.softwareConfig, by simp⟩]
    rfl

/-- Claim C4 witness: the amended theorem at the initial state with flags
4 (bit 2 set). -/
theorem c4_witness :
    initialState.m_current_renderer_type = GSRendererType.Undefined
    ∧ initialState.stored_toggle_state = false
    ∧ ((GSopen2 envT 4 0 initialState).2).m_current_renderer_type =
      (if toggleOf 4 then toggleSwap (resolveBase envT.ctx envT.softwareConfig)
       else resolveBase envT.ctx envT.softwareConfig) :=
  ⟨by decide, by decide,
    c4_first_call_toggle_applied envT 4 0 initialState (by decide) (by decide)⟩

/-! ## Claim C6: GSclose -/

/-- Claim C6: GSclose with no live Renderer is a no-op; otherwise it
invokes ResetDevice on the Renderer, releases exactly the owned Device
(its heap id is the only one deleted) and nulls the m_dev field, while
the Renderer object itself — its identity and every other field — stays
alive and unchanged. -/
theorem c6_close_spec (s : GSState) (r : GSRenderer) (d : GSDevice)
    (hr : s.s_gs = some r) (hd : r.m_dev = some d) :
    (GSclose s =
      { s with
        s_gs := some { r with m_dev := none }
        resetDeviceCalls := r.id :: s.resetDeviceCalls
        destroyed := d.id :: s.destroyed })
    ∧ GSclose { s with s_gs := none } = { s with s_gs := none } := by
  constructor
  · unfold GSclose
    rw [hr]
    simp [hd]
  · unfold GSclose
    rfl

/-- Claim C6 witness: closing the concrete open state stA resets and
releases only device 0 and keeps renderer 1 alive and deviceless; closing
with s_gs nulled is the identity. -/
theorem c6_witness :
    stA.s_gs = some rA
    ∧ rA.m_dev = some devA
    ∧ ((GSclose stA =
        { stA with
          s_gs := some { rA with m_dev := none }
          resetDeviceCalls := rA.id :: stA.resetDeviceCalls
          destroyed := devA.id :: stA.destroyed })
      ∧ GSclose { stA with s_gs := none } = { stA with s_gs := none }) :=
  ⟨by decide, by decide, c6_close_spec stA rA devA (by decide) (by decide)⟩

/-! ## Claim C7: CreateDevice failure handling in _GSopen -/

/-- Claim C7: after the basemem pointer is bound into the Renderer, the
new Device is handed to CreateDevice; whenever CreateDevice reports
failure, _GSopen invokes GSclose on the half-built state and
returns the negative failure code -1 (an ordinary return value — the
model is a total function, no exception escapes), leaving the Renderer
alive but deviceless. -/
theorem c7_create_device_failure_unwinds (env : Env) (v : GSRendererType)
    (threads : Int) (p : Nat) (s : GSState)
    (hfail : env.createOk = false) :
    ((_GSopen env v threads p s).1 = -1)
    ∧ ((_GSopen env v threads p s).2 = GSclose (_GSopenPre env v threads p s).1)
    ∧ (((_GSopen env v threads p s).2).s_gs.map GSRenderer.m_dev = some none) := by
  have hsome : ∃ r, ((_GSopenPre env v threads p s).1).s_gs = some r := by
    unfold _GSopenPre stepSetRegs stepMakeRenderer stepTeardown
    by_cases h : s.m_current_renderer_type = v
    · rcases hsg : s.s_gs with _ | r <;> simp [hsg, h]
    · rcases hsg : s.s_gs with _ | r <;> simp [hsg, h]
  rcases hsome with ⟨r, hrp⟩
  refine ⟨?_, ?_, ?_⟩
  · unfold _GSopen
    simp [hrp, CreateDevice, hfail]
  · unfold _GSopen
    simp [hrp, CreateDevice, hfail]
  · unfold _GSopen
    simp only [hrp]
    simp [CreateDevice, hfail, GSclose, hrp]

/-- Claim C7 witness: opening OGL_HW from the initial state with failing
device setup returns -1, lands in the GSclose of the pre-state and leaves
the fresh renderer deviceless. -/
theorem c7_witness :
    envF.createOk = false
    ∧ (((_GSopen envF GSRendererType.OGL_HW (-1) 7 initialState).1 = -1)
      ∧ ((_GSopen envF GSRendererType.OGL_HW (-1) 7 initialState).2
          = GSclose (_GSopenPre envF GSRendererType.OGL_HW (-1) 7 initialState).1)
      ∧ (((_GSopen envF GSRendererType.OGL_HW (-1) 7 initialState).2).s_gs.map GSRenderer.m_dev
          = some none)) :=
  ⟨by decide,
    c7_create_device_failure_unwinds envF GSRendererType.OGL_HW (-1) 7 initialState (by decide)⟩

/-! ## Claim C8: the GIF transfer entry points -/

/-- Claim C8: each of the four GIF entry points invokes exactly one
Transfer specialization — GSgifTransfer invokes Transfer with path 3 on
(mem, size), GSgifTransfer1 invokes Transfer with path 0 on the buffer
mem + addr with size (0x4000 - addr) / 16 (the u32 subtraction agreeing
with the Nat one since addr ≤ 0x4000), GSgifTransfer2 invokes Transfer
with path 1, and GSgifTransfer3 invokes Transfer with path 2. -/
theorem c8_gif_entry_points (s : GSState) (r : GSRenderer)
    (mem size addr : Nat) (hr : s.s_gs = some r) (haddr : addr ≤ 0x4000) :
    ((GSgifTransfer s mem size).s_gs = some (r.Transfer 3 mem size))
    ∧ ((GSgifTransfer1 s mem addr).s_gs
        = some (r.Transfer 0 (mem + addr) ((0x4000 - addr) / 16)))
    ∧ ((GSgifTransfer2 s mem size).s_gs = some (r.Transfer 1 mem size))
    ∧ ((GSgifTransfer3 s mem size).s_gs = some (r.Transfer 2 mem size)) := by
  have hsub : u32sub 0x4000 addr = 0x4000 - addr := by
    unfold u32sub
    omega
  refine ⟨?_, ?_, ?_, ?_⟩
  · simp [GSgifTransfer, hr]
  · simp [GSgifTransfer1, hr, hsub]
  · simp [GSgifTransfer2, hr]
  · simp [GSgifTransfer3, hr]

/-- Claim C8 witness: the four entry points applied to the concrete open
state stA with mem 100, size 5 and addr 0x1000. -/
theorem c8_witness :
    stA.s_gs = some rA
    ∧ (0x1000 : Nat) ≤ 0x4000
    ∧ (((GSgifTransfer stA 100 5).s_gs = some (rA.Transfer 3 100 5))
      ∧ ((GSgifTransfer1 stA 100 0x1000).s_gs
          = some (rA.Transfer 0 (100 + 0x1000) ((0x4000 - 0x1000) / 16)))
      ∧ ((GSgifTransfer2 stA 100 5).s_gs = some (rA.Transfer 1 100 5))
      ∧ ((GSgifTransfer3 stA 100 5).s_gs = some (rA.Transfer 2 100 5))) :=
  ⟨by decide, by decide, c8_gif_entry_points stA rA 100 5 0x1000 (by decide) (by decide)⟩

/-! ## Claim C10: GSfreeze on unknown modes -/

/-- Claim C10: for every mode value other than FREEZE_SAVE, FREEZE_SIZE
and FREEZE_LOAD, GSfreeze returns 0 and the state is untouched — in
particular the Freeze/Defrost call log is unchanged, so neither Renderer
serialization method is invoked and nothing can mutate renderer state or
the caller buffer. -/
theorem c10_freeze_default_noop (env : Env) (mode : Int) (data : Nat)
    (s : GSState)
    (h1 : mode ≠ FREEZE_SAVE) (h2 : mode ≠ FREEZE_SIZE) (h3 : mode ≠ FREEZE_LOAD) :
    GSfreeze env mode data s = (0, s) := by
  simp [GSfreeze, h1, h2, h3]

/-- Claim C10 witness: mode 5 on the concrete open state stA. -/
theorem c10_witness :
    (5 : Int) ≠ FREEZE_SAVE
    ∧ (5 : Int) ≠ FREEZE_SIZE
    ∧ (5 : Int) ≠ FREEZE_LOAD
    ∧ GSfreeze envT 5 42 stA = (0, stA) :=
  ⟨by decide, by decide, by decide,
    c10_freeze_default_noop envT 5 42 stA (by decide) (by decide) (by decide)⟩

/-! ## Claim C9: the POSIX fifo_alloc self-aliasing ring -/

lemma fifoMapAux_lookup (env : FifoEnv) (base size : Nat) :
    ∀ fuel i mem,
    (∀ k j, k < i → j < size → lookupMem mem (base + size * k + j) = some j) →
    (∀ k, i ≤ k → k < i + fuel → env.fixedOk k = true) →
    ∀ k j, k < i + fuel → j < size →
      lookupMem (fifoMapAux env base size i fuel mem) (base + size * k + j) = some j := by
  intro fuel
  induction fuel with
  | zero =>
    intro i mem hlow _ k j hk hj
    exact hlow k j (by omega) hj
  | succ n ih =>
    intro i mem hlow hok k j hk hj
    have hfi : env.fixedOk i = true := hok i le_rfl (by omega)
    rw [fifoMapAux, hfi, if_pos rfl]
    refine ih (i + 1) ((base + size * i, size, 0) :: mem) ?_ ?_ k j (by omega) hj
    · intro k2 j2 hk2 hj2
      by_cases hki : k2 = i
      · subst hki
        rw [lookupMem, if_pos (by omega)]
        congr 1
        omega
      · have hmul : size * k2 + size ≤ size * i :=
          by simpa [Nat.mul_succ] using Nat.mul_le_mul_left size (show k2 + 1 ≤ i by omega)
        rw [lookupMem, if_neg (by omega)]
        exact hlow k2 j2 (by omega) hj2
    · intro k2 h1 h2
      exact hok k2 (by omega) (by omega)

/-- Claim C9, counterexample: with shm_open and the initial full-range
mmap succeeding but the single MAP_FIXED remap of segment 1 failing
(size 16, repeat 2, base address 4096), fifo_alloc neither fails nor
rolls anything back — it returns the non-null base — yet segment 1 does
not alias segment 0: the head of segment 1 resolves to backing-object
offset 16 (the linear initial mapping) while the head of segment 0
resolves to offset 0, so a boundary-spanning write would not read back
identically. This refutes the claim, which allows only a null return or
fully aliased repeat segments with rollback when a mapping step fails. -/
theorem c9_counterexample :
    ((fifo_alloc (FifoEnv.mk true 4096 true fun _ => false) 16 2).1 = some 4096)
    ∧ (lookupMem (fifo_alloc (FifoEnv.mk true 4096 true fun _ => false) 16 2).2 4096
        = some 0)
    ∧ (lookupMem (fifo_alloc (FifoEnv.mk true 4096 true fun _ => false) 16 2).2 (4096 + 16)
        = some 16)
    ∧ (aliasedUpTo (fifo_alloc (FifoEnv.mk true 4096 true fun _ => false) 16 2).2 4096 16 2
        = false) := by
  decide

/-- Claim C9 as amended: the POSIX fifo_alloc returns null only when
shm_open fails; no mmap result is ever checked, so a failed segment remap
is silently ignored with no rollback (see the counterexample). When the
initial mmap and every MAP_FIXED remap succeed, the call returns the base
address and produces repeat - 1 additional mappings, segment i lying
exactly size * i bytes after the base and mapping offset 0 of the single
backing object, so every address base + size * i + j with j < size
resolves to backing offset j — the true-aliasing ring property, under
which a write spanning a segment boundary reads back identically through
either neighbouring segment. -/
theorem c9_fifo_alloc_aliasing (env : FifoEnv) (size rpt : Nat)
    (hshm : env.shmOpenOk = true) (hbase : env.mmapBaseOk = true)
    (hrep : 1 ≤ rpt)
    (hfix : ((List.range rpt).all fun i => i == 0 || env.fixedOk i) = true) :
    ((fifo_alloc env size rpt).1 = some env.mmapBase)
    ∧ (aliasedUpTo (fifo_alloc env size rpt).2 env.mmapBase size rpt = true) := by
  have hfix2 : ∀ k, 1 ≤ k → k < 1 + (rpt - 1) → env.fixedOk k = true := by
    intro k h1 h2
    have hm := List.all_eq_true.mp hfix k (List.mem_range.mpr (by omega))
    rcases Bool.or_eq_true_iff.mp hm with h | h
    · exact absurd (beq_iff_eq.mp h) (by omega)
    · exact h
  have hall : ∀ k j, k < 1 + (rpt - 1) → j < size →
      lookupMem (fifo_alloc env size rpt).2 (env.mmapBase + size * k + j) = some j := by
    intro k j hk hj
    have hmem0 : ∀ k2 j2, k2 < 1 → j2 < size →
        lookupMem [(env.mmapBase, size * rpt, 0)] (env.mmapBase + size * k2 + j2) = some j2 := by
      intro k2 j2 hk2 hj2
      have hk0 : k2 = 0 := by omega
      subst hk0
      have hsz : size * 1 ≤ size * rpt := Nat.mul_le_mul_left size hrep
      rw [lookupMem, if_pos (by omega)]
      congr 1
      omega
    have := fifoMapAux_lookup env env.mmapBase size (rpt - 1) 1
      [(env.mmapBase, size * rpt, 0)] hmem0 hfix2 k j hk hj
    unfold fifo_alloc
    rw [hshm, if_pos rfl, hbase]
    simpa using this
  constructor
  · unfold fifo_alloc
    rw [hshm, if_pos rfl, hbase]
    rfl
  · rw [aliasedUpTo, List.all_eq_true]
    intro i hi
    rw [List.all_eq_true]
    intro j hj
    have hi2 := List.mem_range.mp hi
    have hj2 := List.mem_range.mp hj
    exact beq_iff_eq.mpr (hall i j (by omega) hj2)

/-- Claim C9 witness: size 8, repeat 3, base 4096, every system call
succeeding — the returned base is 4096 and all three segments alias the
backing object at offset 0. -/
theorem c9_witness :
    ((FifoEnv.mk true 4096 true fun _ => true).shmOpenOk = true)
    ∧ ((FifoEnv.mk true 4096 true fun _ => true).mmapBaseOk = true)
    ∧ (1 ≤ 3)
    ∧ (((List.range 3).all fun i => i == 0 || (FifoEnv.mk true 4096 true fun _ => true).fixedOk i) = true)
    ∧ (((fifo_alloc (FifoEnv.mk true 4096 true fun _ => true) 8 3).1 = some 4096)
      ∧ (aliasedUpTo (fifo_alloc (FifoEnv.mk true 4096 true fun _ => true) 8 3).2 4096 8 3 = true)) :=
  ⟨rfl, rfl, by decide, by decide,
    c9_fifo_alloc_aliasing (FifoEnv.mk true 4096 true fun _ => true) 8 3
      rfl rfl (by decide) (by decide)⟩
